import Mathlib

/-!
Verification development for a FastAPI billing/OAuth backend (`main.py`,
`schemas.py`).  The handlers are shallowly embedded as pure Lean functions:
external collaborators (the payment provider SDK, the token endpoint of
the identity provider, signature verification) are passed in as explicit
function parameters, and the document store is explicit state.

The `database` module of the repository (providing `db`, `create_document`,
`get_documents`) is not part of the sources; its contract is modelled from
the specification, section 4.1 (generic `insert(collection, document)`
appending a document verbatim, and `find_all(collection)` returning the
stored sequence).  The store is modelled in its connected state; the
possibility that an individual write raises is modelled by a boolean
`writeOk` flag threaded through each handler that performs a best-effort
write, and store-unavailability at seed time by a `storeOk` flag.
-/

namespace Backend

/-- JSON-ish values appearing in stored documents and provider responses.
Only the shapes the handlers actually touch are needed: strings, integers
and lists of strings (plan feature lists). -/
inductive Value where
  | str (s : String)
  | int (n : Int)
  | strList (xs : List String)
deriving DecidableEq, Repr

/-- A document is an association list of field names to values
(a Python dict as produced by `r.json()` or read back from the store). -/
def Doc : Type := List (String × Value)

instance : DecidableEq Doc := by
  unfold Doc
  infer_instance

/-- Python dict lookup `d.get(k)`: the value at the first matching key,
or `none` when the key is absent. -/
def getv (d : Doc) (k : String) : Option Value :=
  (d.find? (fun kv => kv.1 = k)).map (fun kv => kv.2)

/-- The document store: each collection name maps to its stored sequence
of documents, in insertion order.  Modelled from the spec:
`insert(collection, document) -> id` / `find_all(collection)`. -/
def Store : Type := String → List Doc

/-- Modelled from the spec: `insert` appends the document verbatim to the
named collection. -/
def insertDoc (s : Store) (c : String) (d : Doc) : Store :=
  fun n => if n = c then s c ++ [d] else s n

/-- Modelled from the spec: `find_all` returns the stored sequence. -/
def get_documents (s : Store) (c : String) : List Doc :=
  s c

/-- The store with every collection empty. -/
def emptyStore : Store := fun _ => []

/-- Environment-driven configuration, read once at process start
(`main.py` lines 30-35, 245-247).  An empty string models an unset (or
empty, which Python treats identically under truthiness) variable;
`stripePresent` models whether the guarded `import stripe` succeeded. -/
structure Config where
  stripePresent : Bool
  STRIPE_SECRET_KEY : String
  STRIPE_WEBHOOK_SECRET : String
  GOOGLE_CLIENT_ID : String
  GOOGLE_CLIENT_SECRET : String
  GOOGLE_REDIRECT_URI : String
  STRIPE_PRICE_STARTER : Option String
  STRIPE_PRICE_GROWTH : Option String
deriving DecidableEq, Repr

/-- Result of a handler: a successful JSON response, or a raised
`HTTPException status_code detail`. -/
inductive HResult (α : Type) where
  | ok (resp : α)
  | httpError (status : Nat) (detail : String)
deriving DecidableEq, Repr

/-- Python `os.getenv(name, default)`: the configured value when set, else the
default literal. -/
def getenvD (v : Option String) (dflt : String) : String :=
  v.getD dflt

/-- The two built-in seed plans, `SAMPLE_PLANS` of `main.py` lines 116-141. -/
def SAMPLE_PLANS (cfg : Config) : List Doc :=
  [ [ ("name", Value.str "Starter"),
      ("description", Value.str "For small businesses getting started"),
      ("price_cents", Value.int 1900),
      ("interval", Value.str "month"),
      ("stripe_price_id", Value.str (getenvD cfg.STRIPE_PRICE_STARTER "price_XXXX_starter")),
      ("features", Value.strList
        [ "Connect 1 Google Business Profile",
          "Basic analytics",
          "Email support" ]) ],
    [ ("name", Value.str "Growth"),
      ("description", Value.str "For growing teams managing multiple locations"),
      ("price_cents", Value.int 4900),
      ("interval", Value.str "month"),
      ("stripe_price_id", Value.str (getenvD cfg.STRIPE_PRICE_GROWTH "price_XXXX_growth")),
      ("features", Value.strList
        [ "Connect up to 5 locations",
          "Posts & hours management",
          "Priority support" ]) ] ]

/-- Startup hook `seed_plans` (`main.py` lines 144-152): when the plan
collection is empty (`count_documents({}) == 0`), insert the sample plans
one by one; any store exception (unconfigured database, failing count or
insert) is swallowed, leaving the store unchanged.  `storeOk = false`
models such an exception. -/
def seed_plans (cfg : Config) (storeOk : Bool) (s : Store) : Store :=
  if ¬ storeOk then s
  else if (s "plan").length = 0 then
    (SAMPLE_PLANS cfg).foldl (fun acc p => insertDoc acc "plan" p) s
  else s

/-- The `PlanOut` response schema (`main.py` lines 41-47). -/
structure PlanOut where
  id : String
  name : String
  description : Option String
  price_cents : Int
  interval : String
  features : List String
deriving DecidableEq, Repr

/-- Python `str()` applied to the result of `d.get("_id")`:
`str(None) = "None"`. -/
def pyStr : Option Value → String
  | none => "None"
  | some (Value.str s) => s
  | some (Value.int n) => toString n
  | some (Value.strList _) => ""

/-- The required `name` field: pydantic raises a validation error when it
is absent (`d.get("name")` yields `None`) or not a string. -/
def fieldName (d : Doc) : Except String String :=
  match getv d "name" with
  | some (Value.str s) => Except.ok s
  | _ => Except.error "validation error: name"

/-- The optional `description` field: absent ↦ `None`. -/
def fieldDescription (d : Doc) : Except String (Option String) :=
  match getv d "description" with
  | none => Except.ok none
  | some (Value.str s) => Except.ok (some s)
  | _ => Except.error "validation error: description"

/-- The `price_cents` field: `d.get("price_cents", 0)` defaults to 0. -/
def fieldPriceCents (d : Doc) : Except String Int :=
  match getv d "price_cents" with
  | none => Except.ok 0
  | some (Value.int n) => Except.ok n
  | _ => Except.error "validation error: price_cents"

/-- The `interval` field: `d.get("interval", "month")`. -/
def fieldInterval (d : Doc) : Except String String :=
  match getv d "interval" with
  | none => Except.ok "month"
  | some (Value.str s) => Except.ok s
  | _ => Except.error "validation error: interval"

/-- The `features` field: `d.get("features", [])`. -/
def fieldFeatures (d : Doc) : Except String (List String) :=
  match getv d "features" with
  | none => Except.ok []
  | some (Value.strList xs) => Except.ok xs
  | _ => Except.error "validation error: features"

/-- Construction of one `PlanOut` from a stored document (`main.py` lines
164-173).  The `name` field has no default and must be a string; pydantic
raises a validation error otherwise.  `description` is optional (absent ↦
`None`), `price_cents` defaults to `0`, `interval` to `"month"`,
`features` to `[]`; `id` is `str(d.get("_id"))`. -/
def buildPlanOut (d : Doc) : Except String PlanOut :=
  match fieldName d, fieldDescription d, fieldPriceCents d,
      fieldInterval d, fieldFeatures d with
  | Except.ok nm, Except.ok ds, Except.ok pc, Except.ok iv, Except.ok fs =>
    Except.ok
      { id := pyStr (getv d "_id"), name := nm, description := ds,
        price_cents := pc, interval := iv, features := fs }
  | Except.error e, _, _, _, _ => Except.error e
  | _, Except.error e, _, _, _ => Except.error e
  | _, _, Except.error e, _, _ => Except.error e
  | _, _, _, Except.error e, _ => Except.error e
  | _, _, _, _, Except.error e => Except.error e

/-- The accumulation loop of `get_plans`: build a `PlanOut` per document,
aborting on the first validation error (the raised error fails the whole
request). -/
def mapPlans : List Doc → Except String (List PlanOut)
  | [] => Except.ok []
  | d :: ds =>
    match buildPlanOut d with
    | Except.error e => Except.error e
    | Except.ok p =>
      match mapPlans ds with
      | Except.error e => Except.error e
      | Except.ok ps => Except.ok (p :: ps)

/-- Endpoint `GET /api/plans` (`main.py` lines 159-174): map every stored plan
document through `buildPlanOut`; a validation error on any document makes
the whole request fail. -/
def get_plans (s : Store) : Except String (List PlanOut) :=
  mapPlans (get_documents s "plan")

/-- Request body of `POST /api/stripe/create-checkout-session`
(`main.py` lines 50-54); the body has already passed schema validation. -/
structure CreateCheckoutSessionIn where
  price_id : String
  customer_email : String
  success_url : String
  cancel_url : String
deriving DecidableEq, Repr

/-- Successful provider-side checkout session: its id and redirect URL. -/
structure CheckoutSessionOut where
  id : String
  url : String
deriving DecidableEq, Repr

/-- Endpoint `POST /api/stripe/create-checkout-session` (`main.py` lines 177-193).
The provider call `stripe.checkout.Session.create` is abstracted as the
function argument `provider` (success returns the session, failure the
exception message).  When the SDK is absent or no secret key is
configured the handler raises 400 before any provider interaction: the
result is then independent of both `payload` and `provider`. -/
def create_checkout_session (cfg : Config) (payload : CreateCheckoutSessionIn)
    (provider : CreateCheckoutSessionIn → Except String CheckoutSessionOut) :
    HResult CheckoutSessionOut :=
  if ¬ cfg.stripePresent ∨ cfg.STRIPE_SECRET_KEY = "" then
    HResult.httpError 400 "Stripe not configured"
  else
    match provider payload with
    | Except.ok sess => HResult.ok sess
    | Except.error e => HResult.httpError 400 e

/-- A verified webhook event as returned by
`stripe.Webhook.construct_event`: its `type` string and the
`event["data"]["object"]` payload. -/
structure StripeEvent where
  type : String
  dataObj : Value
deriving DecidableEq, Repr

/-- Response of the webhook endpoint: `{"received": True}` with an
optional `"skipped": True` key. -/
structure WebhookResp where
  received : Bool
  skipped : Option Bool
deriving DecidableEq, Repr

/-- The four event type names persisted by the webhook handler
(`main.py` lines 227-232). -/
def acceptedEventTypes : List String :=
  [ "checkout.session.completed",
    "customer.subscription.created",
    "customer.subscription.updated",
    "customer.subscription.deleted" ]

/-- Endpoint `POST /api/stripe/webhook` (`main.py` lines 210-239).
`construct_event` abstracts `stripe.Webhook.construct_event` as a function
of the raw body, the `stripe-signature` header and the secret; `none`
models the verification exception (whose message, passed to the 400
detail, is not modelled further).  `writeOk = false` models a raising
`create_document`, which the handler swallows. -/
def stripe_webhook (cfg : Config)
    (construct_event : String → Option String → String → Option StripeEvent)
    (rawBody : String) (sigHeader : Option String) (writeOk : Bool)
    (s : Store) : HResult WebhookResp × Store :=
  if ¬ cfg.stripePresent ∨ cfg.STRIPE_WEBHOOK_SECRET = "" then
    (HResult.ok { received := true, skipped := some true }, s)
  else
    match construct_event rawBody sigHeader cfg.STRIPE_WEBHOOK_SECRET with
    | none => (HResult.httpError 400 "signature verification failed", s)
    | some event =>
      if event.type ∈ acceptedEventTypes then
        let s2 := if writeOk then
            insertDoc s "stripeevent"
              [("type", Value.str event.type), ("data", event.dataObj)]
          else s
        (HResult.ok { received := true, skipped := none }, s2)
      else
        (HResult.ok { received := true, skipped := none }, s)

/-- The answer of the identity provider to the token-exchange POST: HTTP
status and the JSON body (`r.json()`), a mapping of token fields. -/
structure ProviderResp where
  status : Nat
  json : List (String × Value)
deriving DecidableEq, Repr

/-- Response of `POST /api/google/oauth/callback`. -/
structure CallbackResp where
  connected : Bool
  tokens : List (String × Value)
deriving DecidableEq, Repr

/-- The masking comprehension of `main.py` line 306:
`{k: (v if k == "scope" else "***") for k, v in tokens.items()}`. -/
def maskTokens (ts : List (String × Value)) : List (String × Value) :=
  ts.map (fun kv => (kv.1, if kv.1 = "scope" then kv.2 else Value.str "***"))

/-- Endpoint `POST /api/google/oauth/callback` (`main.py` lines 282-306).
`tokenEndpoint` abstracts the synchronous `requests.post` to the token
endpoint as a function of the authorization code.  On HTTP 200 the full
token mapping is persisted verbatim (best-effort: a raising
`create_document`, modelled by `writeOk = false`, is swallowed) and the
masked mapping is echoed. -/
def google_oauth_callback (cfg : Config) (code : String)
    (tokenEndpoint : String → ProviderResp) (writeOk : Bool) (s : Store) :
    HResult CallbackResp × Store :=
  if cfg.GOOGLE_CLIENT_ID = "" ∨ cfg.GOOGLE_CLIENT_SECRET = "" ∨
      cfg.GOOGLE_REDIRECT_URI = "" then
    (HResult.httpError 400 "Google OAuth not configured", s)
  else
    let r := tokenEndpoint code
    if r.status ≠ 200 then
      (HResult.httpError 400 "Failed to exchange code", s)
    else
      let s2 := if writeOk then insertDoc s "googleconnection" r.json else s
      (HResult.ok { connected := true, tokens := maskTokens r.json }, s2)

/-- A stub location record of `GET /api/google/locations`. -/
structure GLocation where
  name : String
  storeCode : String
deriving DecidableEq, Repr

/-- Response of `GET /api/google/locations`. -/
structure LocationsResp where
  connected : Bool
  locations : List GLocation
deriving DecidableEq, Repr

/-- Endpoint `GET /api/google/locations` (`main.py` lines 309-322): connected
exactly when a `googleconnection` document exists; the location list is a
fixed two-element stub. -/
def list_google_locations (s : Store) : LocationsResp :=
  if (get_documents s "googleconnection").isEmpty then
    { connected := false, locations := [] }
  else
    { connected := true,
      locations :=
        [ { name := "Demo Location A", storeCode := "A001" },
          { name := "Demo Location B", storeCode := "B002" } ] }

/-! Concrete instances used to exercise the handlers on explicit inputs. -/

/-- A configuration with Google OAuth fully set and Stripe unset. -/
def cfgGoogle : Config :=
  { stripePresent := false, STRIPE_SECRET_KEY := "", STRIPE_WEBHOOK_SECRET := "",
    GOOGLE_CLIENT_ID := "cid", GOOGLE_CLIENT_SECRET := "csec",
    GOOGLE_REDIRECT_URI := "https://app/cb",
    STRIPE_PRICE_STARTER := none, STRIPE_PRICE_GROWTH := none }

/-- A concrete token mapping as the identity provider would return it. -/
def sampleTokens : List (String × Value) :=
  [ ("access_token", Value.str "ya29.topsecret"),
    ("refresh_token", Value.str "1//refreshsecret"),
    ("scope", Value.str "openid email"),
    ("expires_in", Value.int 3599) ]

/-- A token endpoint answering 200 with `sampleTokens` for every code. -/
def tokenEndpointOk : String → ProviderResp :=
  fun _ => { status := 200, json := sampleTokens }

/-- A configuration with Stripe fully set and Google OAuth unset. -/
def cfgStripe : Config :=
  { stripePresent := true, STRIPE_SECRET_KEY := "sk_live_1",
    STRIPE_WEBHOOK_SECRET := "whsec_1",
    GOOGLE_CLIENT_ID := "", GOOGLE_CLIENT_SECRET := "", GOOGLE_REDIRECT_URI := "",
    STRIPE_PRICE_STARTER := none, STRIPE_PRICE_GROWTH := none }

/-- A concrete verified webhook event of an accepted type. -/
def sampleEvent : StripeEvent :=
  { type := "checkout.session.completed", dataObj := Value.str "cs_test_1" }

/-- A concrete verified webhook event of a type outside the accepted
list. -/
def otherEvent : StripeEvent :=
  { type := "invoice.paid", dataObj := Value.str "in_test_1" }

/-- A verifier accepting every payload as `sampleEvent`. -/
def verifierOk : String → Option String → String → Option StripeEvent :=
  fun _ _ _ => some sampleEvent

/-- A verifier accepting every payload as `otherEvent`. -/
def verifierOther : String → Option String → String → Option StripeEvent :=
  fun _ _ _ => some otherEvent

/-- A plan document carrying only a name: every optional field absent. -/
def minimalPlanDoc : Doc := [("name", Value.str "Basic")]

/-- A plan document with no `name` field. -/
def noNameDoc : Doc := [("price_cents", Value.int 500)]

/-- A store whose plan collection holds only `noNameDoc`. -/
def storeNoName : Store :=
  fun c => if c = "plan" then [noNameDoc] else []

/-!  Theorems settling the claims. -/

/-- C2: with no configured webhook signing secret, the webhook endpoint
answers `{received: true, skipped: true}` and leaves the store unchanged,
for every raw body, every signature header, every write outcome and every
verification function — in particular the result does not depend on the
verifier at all, so no signature verification is performed. -/
theorem webhook_unconfigured_skips (cfg : Config)
    (construct_event : String → Option String → String → Option StripeEvent)
    (rawBody : String) (sigHeader : Option String) (writeOk : Bool)
    (s : Store) (h : cfg.STRIPE_WEBHOOK_SECRET = "") :
    stripe_webhook cfg construct_event rawBody sigHeader writeOk s =
      (HResult.ok { received := true, skipped := some true }, s) := by
  simp [stripe_webhook, h]

/-- Witness for `webhook_unconfigured_skips` at a concrete instance. -/
theorem webhook_unconfigured_skips_witness :
    (Config.mk true "sk" "" "" "" "" none none).STRIPE_WEBHOOK_SECRET = "" ∧
    stripe_webhook (Config.mk true "sk" "" "" "" "" none none)
        (fun _ _ _ => some { type := "ping", dataObj := Value.int 1 })
        "rawbody" (some "t=1,v1=deadbeef") true emptyStore =
      (HResult.ok { received := true, skipped := some true }, emptyStore) :=
  ⟨rfl,
   webhook_unconfigured_skips (Config.mk true "sk" "" "" "" "" none none)
     (fun _ _ _ => some { type := "ping", dataObj := Value.int 1 })
     "rawbody" (some "t=1,v1=deadbeef") true emptyStore rfl⟩

/-- C8: with no provider credential configured (empty secret key), the
checkout-session endpoint raises 400 "Stripe not configured" for every
payload and every behaviour of the provider — the result does not depend
on the `provider` argument, so the provider is never contacted. -/
theorem checkout_unconfigured_fails (cfg : Config)
    (payload : CreateCheckoutSessionIn)
    (provider : CreateCheckoutSessionIn → Except String CheckoutSessionOut)
    (h : cfg.STRIPE_SECRET_KEY = "") :
    create_checkout_session cfg payload provider =
      HResult.httpError 400 "Stripe not configured" := by
  simp [create_checkout_session, h]

/-- Witness for `checkout_unconfigured_fails` at a concrete instance. -/
theorem checkout_unconfigured_fails_witness :
    (Config.mk true "" "whsec" "" "" "" none none).STRIPE_SECRET_KEY = "" ∧
    create_checkout_session (Config.mk true "" "whsec" "" "" "" none none)
        { price_id := "price_123", customer_email := "a@b.co",
          success_url := "https://x/ok", cancel_url := "https://x/no" }
        (fun q => Except.ok { id := "cs_1", url := q.success_url }) =
      HResult.httpError 400 "Stripe not configured" :=
  ⟨rfl,
   checkout_unconfigured_fails (Config.mk true "" "whsec" "" "" "" none none)
     { price_id := "price_123", customer_email := "a@b.co",
       success_url := "https://x/ok", cancel_url := "https://x/no" }
     (fun q => Except.ok { id := "cs_1", url := q.success_url }) rfl⟩

/-- C4: with OAuth fully configured, a non-200 answer from the token
endpoint makes the callback raise 400 "Failed to exchange code" and leave
the store — in particular the `googleconnection` collection — unchanged. -/
theorem callback_non200_fails_no_write (cfg : Config) (code : String)
    (tokenEndpoint : String → ProviderResp) (writeOk : Bool) (s : Store)
    (hid : cfg.GOOGLE_CLIENT_ID ≠ "") (hsec : cfg.GOOGLE_CLIENT_SECRET ≠ "")
    (huri : cfg.GOOGLE_REDIRECT_URI ≠ "")
    (hst : (tokenEndpoint code).status ≠ 200) :
    google_oauth_callback cfg code tokenEndpoint writeOk s =
      (HResult.httpError 400 "Failed to exchange code", s) := by
  simp [google_oauth_callback, hid, hsec, huri, hst]

/-- Witness for `callback_non200_fails_no_write`: provider answers 401. -/
theorem callback_non200_fails_no_write_witness :
    (Config.mk false "" "" "cid" "csec" "https://app/cb" none none).GOOGLE_CLIENT_ID ≠ "" ∧
    (Config.mk false "" "" "cid" "csec" "https://app/cb" none none).GOOGLE_CLIENT_SECRET ≠ "" ∧
    (Config.mk false "" "" "cid" "csec" "https://app/cb" none none).GOOGLE_REDIRECT_URI ≠ "" ∧
    ((fun (_ : String) => ProviderResp.mk 401 [("error", Value.str "invalid_grant")]) "abc").status ≠ 200 ∧
    google_oauth_callback (Config.mk false "" "" "cid" "csec" "https://app/cb" none none) "abc"
        (fun _ => ProviderResp.mk 401 [("error", Value.str "invalid_grant")]) true emptyStore =
      (HResult.httpError 400 "Failed to exchange code", emptyStore) :=
  ⟨by decide, by decide, by decide, by decide,
   callback_non200_fails_no_write
     (Config.mk false "" "" "cid" "csec" "https://app/cb" none none) "abc"
     (fun _ => ProviderResp.mk 401 [("error", Value.str "invalid_grant")]) true emptyStore
     (by decide) (by decide) (by decide) (by decide)⟩

/-- Every entry of the masked mapping whose key is not `"scope"` carries
the redaction marker. -/
theorem maskTokens_masks {ts : List (String × Value)} {kv : String × Value}
    (hm : kv ∈ maskTokens ts) (hne : kv.1 ≠ "scope") :
    kv.2 = Value.str "***" := by
  rcases List.mem_map.mp hm with ⟨a, _, ha⟩
  rcases kv with ⟨k, v⟩
  cases ha
  simp_all

/-- The `"scope"` entries of the masked mapping are exactly those of the
original mapping. -/
theorem maskTokens_scope {ts : List (String × Value)} {v : Value} :
    ("scope", v) ∈ maskTokens ts ↔ ("scope", v) ∈ ts := by
  constructor
  · intro hm
    rcases List.mem_map.mp hm with ⟨⟨k2, v2⟩, hmem, ha⟩
    obtain ⟨hk, hv⟩ := Prod.mk.injEq .. ▸ ha
    subst hk
    simpa [← hv] using hmem
  · intro hm
    exact List.mem_map.mpr ⟨("scope", v), hm, by simp⟩

/-- C1: on a 200 answer from the token endpoint, the callback responds
with exactly the masked mapping: the `scope` entry is echoed unchanged,
every other key carries `"***"`, and in particular any value listed under
`access_token` or `refresh_token` is the literal `"***"` — never the
token value returned by the provider. -/
theorem callback_masks_all_but_scope (cfg : Config) (code : String)
    (tokenEndpoint : String → ProviderResp) (writeOk : Bool) (s : Store)
    (hid : cfg.GOOGLE_CLIENT_ID ≠ "") (hsec : cfg.GOOGLE_CLIENT_SECRET ≠ "")
    (huri : cfg.GOOGLE_REDIRECT_URI ≠ "")
    (hst : (tokenEndpoint code).status = 200) :
    (google_oauth_callback cfg code tokenEndpoint writeOk s).1 =
      HResult.ok { connected := true, tokens := maskTokens (tokenEndpoint code).json } ∧
    (∀ kv ∈ maskTokens (tokenEndpoint code).json,
        kv.1 ≠ "scope" → kv.2 = Value.str "***") ∧
    (∀ v : Value, ("scope", v) ∈ maskTokens (tokenEndpoint code).json ↔
        ("scope", v) ∈ (tokenEndpoint code).json) ∧
    (∀ v : Value, ("access_token", v) ∈ maskTokens (tokenEndpoint code).json →
        v = Value.str "***") ∧
    (∀ v : Value, ("refresh_token", v) ∈ maskTokens (tokenEndpoint code).json →
        v = Value.str "***") := by
  refine ⟨?_, ?_, ?_, ?_, ?_⟩
  · simp [google_oauth_callback, hid, hsec, huri, hst]
  · intro kv hm hne
    exact maskTokens_masks hm hne
  · intro v
    exact maskTokens_scope
  · intro v hm
    exact maskTokens_masks hm (by simp)
  · intro v hm
    exact maskTokens_masks hm (by simp)

/-- Witness for `callback_masks_all_but_scope`: a provider answering 200
with concrete access/refresh tokens, a scope and an expiry. -/
theorem callback_masks_all_but_scope_witness :
    cfgGoogle.GOOGLE_CLIENT_ID ≠ "" ∧
    cfgGoogle.GOOGLE_CLIENT_SECRET ≠ "" ∧
    cfgGoogle.GOOGLE_REDIRECT_URI ≠ "" ∧
    (tokenEndpointOk "abc").status = 200 ∧
    ((google_oauth_callback cfgGoogle "abc" tokenEndpointOk true emptyStore).1 =
      HResult.ok { connected := true, tokens := maskTokens (tokenEndpointOk "abc").json } ∧
     (∀ kv ∈ maskTokens (tokenEndpointOk "abc").json,
        kv.1 ≠ "scope" → kv.2 = Value.str "***") ∧
     (∀ v : Value, ("scope", v) ∈ maskTokens (tokenEndpointOk "abc").json ↔
        ("scope", v) ∈ (tokenEndpointOk "abc").json) ∧
     (∀ v : Value, ("access_token", v) ∈ maskTokens (tokenEndpointOk "abc").json →
        v = Value.str "***") ∧
     (∀ v : Value, ("refresh_token", v) ∈ maskTokens (tokenEndpointOk "abc").json →
        v = Value.str "***")) :=
  ⟨by decide, by decide, by decide, rfl,
   callback_masks_all_but_scope cfgGoogle "abc" tokenEndpointOk true emptyStore
     (by decide) (by decide) (by decide) rfl⟩

/-- C9: on a 200 answer, the callback reports `connected: true` even when
the store write fails (the exception is swallowed and the store is left
unchanged); a subsequent `GET /api/google/locations` against a store with
no `googleconnection` document then reports `connected: false` with an
empty location list. -/
theorem callback_ok_despite_write_failure (cfg : Config) (code : String)
    (tokenEndpoint : String → ProviderResp) (s : Store)
    (hid : cfg.GOOGLE_CLIENT_ID ≠ "") (hsec : cfg.GOOGLE_CLIENT_SECRET ≠ "")
    (huri : cfg.GOOGLE_REDIRECT_URI ≠ "")
    (hst : (tokenEndpoint code).status = 200)
    (hconn : s "googleconnection" = []) :
    google_oauth_callback cfg code tokenEndpoint false s =
      (HResult.ok { connected := true,
                    tokens := maskTokens (tokenEndpoint code).json }, s) ∧
    list_google_locations (google_oauth_callback cfg code tokenEndpoint false s).2 =
      { connected := false, locations := [] } := by
  have hh : google_oauth_callback cfg code tokenEndpoint false s =
      (HResult.ok { connected := true,
                    tokens := maskTokens (tokenEndpoint code).json }, s) := by
    simp [google_oauth_callback, hid, hsec, huri, hst]
  refine ⟨hh, ?_⟩
  rw [hh]
  simp [list_google_locations, get_documents, hconn]

/-- Witness for `callback_ok_despite_write_failure`: a failing write on a
store with no connection document. -/
theorem callback_ok_despite_write_failure_witness :
    cfgGoogle.GOOGLE_CLIENT_ID ≠ "" ∧
    cfgGoogle.GOOGLE_CLIENT_SECRET ≠ "" ∧
    cfgGoogle.GOOGLE_REDIRECT_URI ≠ "" ∧
    (tokenEndpointOk "abc").status = 200 ∧
    emptyStore "googleconnection" = [] ∧
    (google_oauth_callback cfgGoogle "abc" tokenEndpointOk false emptyStore =
      (HResult.ok { connected := true,
                    tokens := maskTokens (tokenEndpointOk "abc").json }, emptyStore) ∧
     list_google_locations
        (google_oauth_callback cfgGoogle "abc" tokenEndpointOk false emptyStore).2 =
      { connected := false, locations := [] }) :=
  ⟨by decide, by decide, by decide, rfl, rfl,
   callback_ok_despite_write_failure cfgGoogle "abc" tokenEndpointOk emptyStore
     (by decide) (by decide) (by decide) rfl rfl⟩

/-- C3: with a configured secret and a verifying signature, the webhook
endpoint always acknowledges `{received: true}`; with a working store it
appends a `stripeevent` document exactly when the event type is one of
the four accepted names (the count grows by 1 then, by 0 otherwise), and
a failing store write leaves the store unchanged without affecting the
acknowledgement.  The spec refers to these event types by hyphenated
names (checkout-session-completed and so on); the code matches the
dotted provider strings listed in `acceptedEventTypes`. -/
theorem webhook_verified_persists_iff_accepted (cfg : Config)
    (construct_event : String → Option String → String → Option StripeEvent)
    (rawBody : String) (sigHeader : Option String) (writeOk : Bool)
    (s : Store) (event : StripeEvent)
    (hp : cfg.stripePresent = true) (hs : cfg.STRIPE_WEBHOOK_SECRET ≠ "")
    (hv : construct_event rawBody sigHeader cfg.STRIPE_WEBHOOK_SECRET = some event) :
    (stripe_webhook cfg construct_event rawBody sigHeader writeOk s).1 =
      HResult.ok { received := true, skipped := none } ∧
    (writeOk = true →
      (event.type ∈ acceptedEventTypes →
        (stripe_webhook cfg construct_event rawBody sigHeader writeOk s).2 =
          insertDoc s "stripeevent"
            [("type", Value.str event.type), ("data", event.dataObj)]) ∧
      (event.type ∉ acceptedEventTypes →
        (stripe_webhook cfg construct_event rawBody sigHeader writeOk s).2 = s) ∧
      ((stripe_webhook cfg construct_event rawBody sigHeader writeOk s).2
          "stripeevent").length =
        (s "stripeevent").length +
          (if event.type ∈ acceptedEventTypes then 1 else 0)) ∧
    (writeOk = false →
      (stripe_webhook cfg construct_event rawBody sigHeader writeOk s).2 = s) := by
  refine ⟨?_, ?_, ?_⟩
  · by_cases hm : event.type ∈ acceptedEventTypes <;>
      simp [stripe_webhook, hp, hs, hv, hm]
  · intro hwk
    subst hwk
    by_cases hm : event.type ∈ acceptedEventTypes <;>
      simp [stripe_webhook, hp, hs, hv, hm, insertDoc]
  · intro hwk
    subst hwk
    by_cases hm : event.type ∈ acceptedEventTypes <;>
      simp [stripe_webhook, hp, hs, hv, hm]

/-- Witness for `webhook_verified_persists_iff_accepted`: a verified
`checkout.session.completed` event against an empty store with a working
write. -/
theorem webhook_verified_persists_iff_accepted_witness :
    cfgStripe.stripePresent = true ∧
    cfgStripe.STRIPE_WEBHOOK_SECRET ≠ "" ∧
    verifierOk "rawbody" (some "t=1,v1=cafe") cfgStripe.STRIPE_WEBHOOK_SECRET =
      some sampleEvent ∧
    ((stripe_webhook cfgStripe verifierOk "rawbody" (some "t=1,v1=cafe") true
        emptyStore).1 = HResult.ok { received := true, skipped := none } ∧
     (true = true →
       (sampleEvent.type ∈ acceptedEventTypes →
         (stripe_webhook cfgStripe verifierOk "rawbody" (some "t=1,v1=cafe") true
             emptyStore).2 =
           insertDoc emptyStore "stripeevent"
             [("type", Value.str sampleEvent.type), ("data", sampleEvent.dataObj)]) ∧
       (sampleEvent.type ∉ acceptedEventTypes →
         (stripe_webhook cfgStripe verifierOk "rawbody" (some "t=1,v1=cafe") true
             emptyStore).2 = emptyStore) ∧
       ((stripe_webhook cfgStripe verifierOk "rawbody" (some "t=1,v1=cafe") true
           emptyStore).2 "stripeevent").length =
         (emptyStore "stripeevent").length +
           (if sampleEvent.type ∈ acceptedEventTypes then 1 else 0)) ∧
     (true = false →
       (stripe_webhook cfgStripe verifierOk "rawbody" (some "t=1,v1=cafe") true
           emptyStore).2 = emptyStore)) :=
  ⟨rfl, by decide, rfl,
   webhook_verified_persists_iff_accepted cfgStripe verifierOk "rawbody"
     (some "t=1,v1=cafe") true emptyStore sampleEvent rfl (by decide) rfl⟩

/-- Folding insertions into a collection appends the inserted documents,
in order. -/
theorem foldl_insertDoc (l : List Doc) (s : Store) (c : String) :
    (l.foldl (fun acc p => insertDoc acc c p) s) c = s c ++ l := by
  induction l generalizing s with
  | nil => simp
  | cons a t ih =>
    rw [List.foldl_cons, ih]
    simp [insertDoc]

/-- Seeding an empty catalog stores exactly the sample plans, in order. -/
theorem seed_plans_fills (cfg : Config) (s : Store) (h : s "plan" = []) :
    (seed_plans cfg true s) "plan" = SAMPLE_PLANS cfg := by
  simp [seed_plans, h, foldl_insertDoc]

/-- Seeding a non-empty catalog is a no-op. -/
theorem seed_plans_noop (cfg : Config) (s : Store)
    (h : (s "plan").length ≠ 0) : seed_plans cfg true s = s := by
  simp [seed_plans, h]

/-- C5: from an empty plan collection, the first seed run inserts the two
built-in plans (the count is zero) and a second run inserts nothing (the
count is then non-zero): two runs leave exactly two plan documents. -/
theorem seed_plans_twice_two_docs (cfg : Config) (s : Store)
    (h : s "plan" = []) :
    ((seed_plans cfg true s) "plan").length = 2 ∧
    seed_plans cfg true (seed_plans cfg true s) = seed_plans cfg true s ∧
    ((seed_plans cfg true (seed_plans cfg true s)) "plan").length = 2 := by
  have h1 : ((seed_plans cfg true s) "plan").length = 2 := by
    rw [seed_plans_fills cfg s h]
    simp [SAMPLE_PLANS]
  have h2 : seed_plans cfg true (seed_plans cfg true s) = seed_plans cfg true s :=
    seed_plans_noop cfg _ (by omega)
  exact ⟨h1, h2, by rw [h2, h1]⟩

/-- Witness for `seed_plans_twice_two_docs` on the empty store. -/
theorem seed_plans_twice_two_docs_witness :
    emptyStore "plan" = [] ∧
    (((seed_plans cfgStripe true emptyStore) "plan").length = 2 ∧
     seed_plans cfgStripe true (seed_plans cfgStripe true emptyStore) =
       seed_plans cfgStripe true emptyStore ∧
     ((seed_plans cfgStripe true (seed_plans cfgStripe true emptyStore))
         "plan").length = 2) :=
  ⟨rfl, seed_plans_twice_two_docs cfgStripe emptyStore rfl⟩

/-- C6: after seeding an empty store, `GET /api/plans` returns exactly
two entries — "Starter" (1900 cents, monthly) and "Growth" (4900 cents,
monthly) — each with its three built-in feature strings in original
order. -/
theorem seeded_catalog_listing (cfg : Config) :
    ∃ l, get_plans (seed_plans cfg true emptyStore) = Except.ok l ∧
      l.map (fun p => (p.name, p.price_cents, p.interval, p.features)) =
        [ ("Starter", (1900 : Int), "month",
            [ "Connect 1 Google Business Profile", "Basic analytics",
              "Email support" ]),
          ("Growth", (4900 : Int), "month",
            [ "Connect up to 5 locations", "Posts & hours management",
              "Priority support" ]) ] := by
  have h1 : (seed_plans cfg true emptyStore) "plan" = SAMPLE_PLANS cfg :=
    seed_plans_fills cfg emptyStore rfl
  refine
    ⟨[ { id := "None", name := "Starter",
         description := some "For small businesses getting started",
         price_cents := 1900, interval := "month",
         features := [ "Connect 1 Google Business Profile", "Basic analytics",
                       "Email support" ] },
       { id := "None", name := "Growth",
         description := some "For growing teams managing multiple locations",
         price_cents := 4900, interval := "month",
         features := [ "Connect up to 5 locations", "Posts & hours management",
                       "Priority support" ] } ], ?_, ?_⟩
  · rw [get_plans, get_documents, h1]
    simp [SAMPLE_PLANS, mapPlans, buildPlanOut, fieldName, fieldDescription,
      fieldPriceCents, fieldInterval, fieldFeatures, getv, pyStr]
  · simp

/-- C7: a stored plan document whose `description` or `features` field is
absent (and whose present fields are well typed) is returned by the plan
listing without error, with `description = none` and/or `features = []`;
lifting to the endpoint, a store holding just that document lists
exactly that defaulted entry. -/
theorem listPlans_defaults_optional_fields (d : Doc) (nm : String)
    (hn : getv d "name" = some (Value.str nm))
    (hp : getv d "price_cents" = none ∨
      ∃ n, getv d "price_cents" = some (Value.int n))
    (hi : getv d "interval" = none ∨
      ∃ iv, getv d "interval" = some (Value.str iv))
    (hd : getv d "description" = none ∨
      ∃ ds, getv d "description" = some (Value.str ds))
    (hf : getv d "features" = none ∨
      ∃ fs, getv d "features" = some (Value.strList fs)) :
    ∃ p, buildPlanOut d = Except.ok p ∧
      (getv d "description" = none → p.description = none) ∧
      (getv d "features" = none → p.features = []) ∧
      get_plans (fun c => if c = "plan" then [d] else []) = Except.ok [p] := by
  rcases hp with hp | ⟨pn, hp⟩ <;> rcases hi with hi | ⟨iv, hi⟩ <;>
    rcases hd with hd | ⟨ds, hd⟩ <;> rcases hf with hf | ⟨fs, hf⟩ <;>
    simp [buildPlanOut, fieldName, fieldDescription, fieldPriceCents,
      fieldInterval, fieldFeatures, get_plans, get_documents, mapPlans,
      hn, hp, hi, hd, hf]

/-- Witness for `listPlans_defaults_optional_fields` on a document with
only a name. -/
theorem listPlans_defaults_optional_fields_witness :
    getv minimalPlanDoc "name" = some (Value.str "Basic") ∧
    (getv minimalPlanDoc "price_cents" = none ∨
      ∃ n, getv minimalPlanDoc "price_cents" = some (Value.int n)) ∧
    (getv minimalPlanDoc "interval" = none ∨
      ∃ iv, getv minimalPlanDoc "interval" = some (Value.str iv)) ∧
    (getv minimalPlanDoc "description" = none ∨
      ∃ ds, getv minimalPlanDoc "description" = some (Value.str ds)) ∧
    (getv minimalPlanDoc "features" = none ∨
      ∃ fs, getv minimalPlanDoc "features" = some (Value.strList fs)) ∧
    (∃ p, buildPlanOut minimalPlanDoc = Except.ok p ∧
      (getv minimalPlanDoc "description" = none → p.description = none) ∧
      (getv minimalPlanDoc "features" = none → p.features = []) ∧
      get_plans (fun c => if c = "plan" then [minimalPlanDoc] else []) =
        Except.ok [p]) :=
  ⟨rfl, Or.inl rfl, Or.inl rfl, Or.inl rfl, Or.inl rfl,
   listPlans_defaults_optional_fields minimalPlanDoc "Basic" rfl
     (Or.inl rfl) (Or.inl rfl) (Or.inl rfl) (Or.inl rfl)⟩

/-- A validation error on any member document fails the whole listing
loop. -/
theorem mapPlans_error_of_mem {l : List Doc} {d : Doc} (hm : d ∈ l)
    (he : ∃ e, buildPlanOut d = Except.error e) :
    ∃ e2, mapPlans l = Except.error e2 := by
  induction l with
  | nil => cases hm
  | cons a t ih =>
    rcases List.mem_cons.mp hm with rfl | hmt
    · obtain ⟨e, he⟩ := he
      exact ⟨e, by simp [mapPlans, he]⟩
    · obtain ⟨e2, ht⟩ := ih hmt
      cases hfa : buildPlanOut a with
      | error e3 => exact ⟨e3, by simp [mapPlans, hfa]⟩
      | ok b => exact ⟨e2, by simp [mapPlans, hfa, ht]⟩

/-- C10: the defaulting in the plan listing does not extend to `name`: a
stored plan document lacking `name` makes its conversion raise a
validation error and the whole `GET /api/plans` request fail, while a
document with a name and all four defaultable fields absent is returned
with exactly the defaults `description = none`, `price_cents = 0`,
`interval = "month"`, `features = []`. -/
theorem plans_fail_without_name (s : Store) (d : Doc)
    (hm : d ∈ s "plan") (hn : getv d "name" = none) :
    buildPlanOut d = Except.error "validation error: name" ∧
    (∃ e, get_plans s = Except.error e) ∧
    (∀ d2 : Doc, ∀ nm : String, getv d2 "name" = some (Value.str nm) →
      getv d2 "description" = none → getv d2 "price_cents" = none →
      getv d2 "interval" = none → getv d2 "features" = none →
      buildPlanOut d2 = Except.ok
        { id := pyStr (getv d2 "_id"), name := nm, description := none,
          price_cents := 0, interval := "month", features := [] }) := by
  have hb : buildPlanOut d = Except.error "validation error: name" := by
    simp [buildPlanOut, fieldName, hn]
  obtain ⟨e2, he2⟩ := mapPlans_error_of_mem hm ⟨_, hb⟩
  refine ⟨hb, ⟨e2, ?_⟩, ?_⟩
  · rw [get_plans, get_documents]
    exact he2
  · intro d2 nm h1 h2 h3 h4 h5
    simp [buildPlanOut, fieldName, fieldDescription, fieldPriceCents,
      fieldInterval, fieldFeatures, h1, h2, h3, h4, h5]

/-- Witness for `plans_fail_without_name` on a store holding one
name-less plan document. -/
theorem plans_fail_without_name_witness :
    noNameDoc ∈ storeNoName "plan" ∧
    getv noNameDoc "name" = none ∧
    (buildPlanOut noNameDoc = Except.error "validation error: name" ∧
     (∃ e, get_plans storeNoName = Except.error e) ∧
     (∀ d2 : Doc, ∀ nm : String, getv d2 "name" = some (Value.str nm) →
       getv d2 "description" = none → getv d2 "price_cents" = none →
       getv d2 "interval" = none → getv d2 "features" = none →
       buildPlanOut d2 = Except.ok
         { id := pyStr (getv d2 "_id"), name := nm, description := none,
           price_cents := 0, interval := "month", features := [] })) :=
  ⟨by simp [storeNoName], rfl,
   plans_fail_without_name storeNoName noNameDoc (by simp [storeNoName]) rfl⟩

end Backend
